import Mathlib

/-!
# Verification of the multi-source correlation engine (rdcs2.py)

Shallow embedding of the core logic of `rdcs2.py`:

* `analyzeRealDataCorrelations` embeds `_analyze_real_data_correlations`
  (the alignment & correlation engine, lines 568-635);
* `calculateRealDataSignificance` embeds `_calculate_real_data_significance`
  (the significance scorer, lines 637-661);
* `calculatePlanetaryAlignment` embeds `_calculate_planetary_alignment`
  (the planetary alignment metric, lines 766-797).

Python dictionaries are modelled as association lists (key order =
insertion order, truthiness = non-emptiness); exact rational arithmetic
stands in for the correlation engine's float arithmetic, and real numbers
for the trigonometric alignment metric.
-/

/-- One seismic event as returned by the USGS adapter: `time` is in
milliseconds since the epoch (the engine divides by 1000), `magnitude`
and `distance_km` are copied into the correlation record. -/
structure SeismicEvent where
  time : ℚ
  magnitude : ℚ
  distance_km : ℚ
deriving DecidableEq, Repr

/-- One celestial body's entry in `planetary_data['positions']`.  The
engine only reads `distance_au`; `none` models an absent/None value, for
which the code substitutes the default 1.0 via `.get('distance_au', 1.0)`. -/
structure PlanetPosition where
  distance_au : Option ℚ
deriving DecidableEq, Repr

/-- The `planetary_data` dict when non-empty: the engine only reads its
`positions` mapping (body name → position). -/
structure PlanetaryData where
  positions : List (String × PlanetPosition)
deriving DecidableEq, Repr

/-- Tagged union of the correlation records built by
`_analyze_real_data_correlations`; each variant carries exactly the
attributes the Python dict of that `type` carries (strings such as
`event_time.isoformat()` that no claim touches are kept as the underlying
rational time). -/
inductive CorrelationRecord where
  | gw_seismic_timing (gw_detector : String) (seismic_magnitude : ℚ)
      (time_difference_seconds : ℚ) (distance_km : ℚ) (confidence : ℚ)
  | tide_lunar_correlation (tide_station : String) (moon_distance_au : ℚ)
      (tide_readings_count : ℕ) (confidence : ℚ)
  | space_weather_cosmic_ray (cosmic_ray_station : String)
      (solar_wind_available : Bool) (cosmic_ray_readings : ℕ) (confidence : ℚ)
  | multi_source_timing (event_time : ℚ) (sources_count : ℕ) (confidence : ℚ)
deriving DecidableEq, Repr

/-- The `confidence` attribute every record carries. -/
def CorrelationRecord.confidence : CorrelationRecord → ℚ
  | .gw_seismic_timing _ _ _ _ c => c
  | .tide_lunar_correlation _ _ _ c => c
  | .space_weather_cosmic_ray _ _ _ c => c
  | .multi_source_timing _ _ c => c

/-- Recognizer for the `gw_seismic_timing` record type. -/
def CorrelationRecord.isGwSeismic : CorrelationRecord → Bool
  | .gw_seismic_timing _ _ _ _ _ => true
  | _ => false

/-- Recognizer for the `tide_lunar_correlation` record type. -/
def CorrelationRecord.isTideLunar : CorrelationRecord → Bool
  | .tide_lunar_correlation _ _ _ _ => true
  | _ => false

/-- Recognizer for the `multi_source_timing` record type. -/
def CorrelationRecord.isMultiSource : CorrelationRecord → Bool
  | .multi_source_timing _ _ _ => true
  | _ => false

/-- Block 1 of `_analyze_real_data_correlations`: GW-Seismic timing
correlations, guarded by `if gw_data and seismic_data`. -/
def gwSeismicCorrelations (gw_data : List (String × List ℚ))
    (seismic_data : List SeismicEvent) (event_time : ℚ) :
    List CorrelationRecord :=
  if !gw_data.isEmpty && !seismic_data.isEmpty then
    gw_data.flatMap fun det =>
      seismic_data.filterMap fun ev =>
        let seismic_time := ev.time / 1000
        let time_diff := |event_time - seismic_time|
        if time_diff < 3600 then
          some (.gw_seismic_timing det.1 ev.magnitude time_diff
            ev.distance_km (1 - time_diff / 3600))
        else none
  else []

/-- Block 2 of `_analyze_real_data_correlations`: Tide-Planetary
correlations, guarded by `if tide_data and planetary_data` with the
per-station `if 'moon' in planetary_data['positions']` check. -/
def tideLunarCorrelations (tide_data : List (String × List ℚ))
    (planetary_data : Option PlanetaryData) : List CorrelationRecord :=
  match planetary_data with
  | none => []
  | some pd =>
    if !tide_data.isEmpty then
      tide_data.flatMap fun station =>
        match pd.positions.lookup "moon" with
        | some moonPos =>
          [.tide_lunar_correlation station.1 (moonPos.distance_au.getD 1)
            station.2.length 0.7]
        | none => []
    else []

/-- Block 3 of `_analyze_real_data_correlations`: Space Weather-Cosmic Ray
correlations, guarded by `if space_weather_data and cosmic_ray_data` with
the per-station `if 'solar_wind' in space_weather_data` check. -/
def spaceWeatherCosmicRayCorrelations
    (space_weather_data : List (String × List ℚ))
    (cosmic_ray_data : List (String × List ℚ)) : List CorrelationRecord :=
  if !space_weather_data.isEmpty && !cosmic_ray_data.isEmpty then
    cosmic_ray_data.flatMap fun station =>
      if (space_weather_data.lookup "solar_wind").isSome then
        [.space_weather_cosmic_ray station.1 true station.2.length 0.6]
      else []
  else []

/-- Block 4 of `_analyze_real_data_correlations`: multi-source timing.
The Python guard is
`if len([gw_data, seismic_data, space_weather_data, cosmic_ray_data]) >= 3`:
the length of a four-element list of the datasets themselves, so it
compares 4 >= 3 and always holds; only `sources_count` filters for
truthiness (`len([x for x in [...] if x])`). -/
def multiSourceCorrelations (gw_data : List (String × List ℚ))
    (seismic_data : List SeismicEvent)
    (space_weather_data : List (String × List ℚ))
    (cosmic_ray_data : List (String × List ℚ)) (event_time : ℚ) :
    List CorrelationRecord :=
  let datasetFlags : List Bool :=
    [!gw_data.isEmpty, !seismic_data.isEmpty,
     !space_weather_data.isEmpty, !cosmic_ray_data.isEmpty]
  if datasetFlags.length ≥ 3 then
    [.multi_source_timing event_time
      (datasetFlags.filter (fun b => b)).length 0.8]
  else []

/-- Embedding of `_analyze_real_data_correlations` (rdcs2.py lines
568-635).  `gw_data` maps detector → strain samples, `seismic_data` is the
event list, `tide_data` maps station → readings, `space_weather_data` maps
product name → readings, `cosmic_ray_data` maps station → readings,
`planetary_data` is `none` for the empty (falsy) dict, and `event_time` is
the reference time in seconds.  The four rules run in order and their
results are concatenated. -/
def analyzeRealDataCorrelations (gw_data : List (String × List ℚ))
    (seismic_data : List SeismicEvent)
    (tide_data : List (String × List ℚ))
    (space_weather_data : List (String × List ℚ))
    (cosmic_ray_data : List (String × List ℚ))
    (planetary_data : Option PlanetaryData)
    (event_time : ℚ) : List CorrelationRecord :=
  gwSeismicCorrelations gw_data seismic_data event_time ++
    tideLunarCorrelations tide_data planetary_data ++
    spaceWeatherCosmicRayCorrelations space_weather_data cosmic_ray_data ++
    multiSourceCorrelations gw_data seismic_data space_weather_data
      cosmic_ray_data event_time

/-- Result record of `_calculate_real_data_significance`: the four entries
of the returned `significance` dict, in insertion order. -/
structure SignificanceScores where
  data_source_diversity : ℚ
  correlation_strength : ℚ
  real_data_completeness : ℚ
  overall : ℚ
deriving DecidableEq, Repr

/-- The fixed list of known source categories (`real_data_sources` in
`_calculate_real_data_significance`). -/
def realDataSources : List String :=
  ["gravitational_waves", "seismic", "ocean_tides",
   "space_weather", "cosmic_rays", "planetary_positions"]

/-- Embedding of `_calculate_real_data_significance` (rdcs2.py lines
637-661), on the two fields of `analysis_results` it reads:
`data_sources_used` and `correlations_found`.  `overall` is
`np.mean` of the three values present in the dict at that point. -/
def calculateRealDataSignificance (data_sources_used : List String)
    (correlations_found : List CorrelationRecord) : SignificanceScores :=
  let diversity := min 1 ((data_sources_used.length : ℚ) / 6)
  let strength := min 1 ((correlations_found.length : ℚ) / 5)
  let completeness :=
    ((data_sources_used.filter (fun s => realDataSources.contains s)).length : ℚ)
      / realDataSources.length
  { data_source_diversity := diversity
    correlation_strength := strength
    real_data_completeness := completeness
    overall := (diversity + strength + completeness) / 3 }

/-- The `gw_seismic_timing` records rule 1 of spec §4.1 prescribes,
written from the spec's words: for every gravitational-wave detector and
every seismic reading, with `Δt = |reference_time − seismic_reading.time|`,
a record with `confidence = 1 − Δt/3600` when `Δt < 3600`; pairs with
`Δt ≥ 3600` are excluded. -/
def specGwSeismicRecords (gw_data : List (String × List ℚ))
    (seismic_data : List SeismicEvent) (event_time : ℚ) :
    List CorrelationRecord :=
  gw_data.flatMap fun det =>
    seismic_data.filterMap fun ev =>
      let time_diff := |event_time - ev.time / 1000|
      if time_diff < 3600 then
        some (.gw_seismic_timing det.1 ev.magnitude time_diff
          ev.distance_km (1 - time_diff / 3600))
      else none

/-- The `tide_lunar_correlation` records rule 2 of spec §4.1 prescribes,
written from the spec's words: if both tide data and a planetary position
for the Moon are present, one record per tide station with fixed
confidence 0.7, independent of the water-level values; otherwise none. -/
def specTideLunarRecords (tide_data : List (String × List ℚ))
    (planetary_data : Option PlanetaryData) : List CorrelationRecord :=
  match planetary_data with
  | none => []
  | some pd =>
    match pd.positions.lookup "moon" with
    | none => []
    | some moonPos =>
      tide_data.map fun station =>
        .tide_lunar_correlation station.1 (moonPos.distance_au.getD 1)
          station.2.length 0.7

/-- Every record built by block 1 is a `gw_seismic_timing` record. -/
lemma isGwSeismic_of_mem_gwSeismicCorrelations
    {gw_data : List (String × List ℚ)} {seismic_data : List SeismicEvent}
    {event_time : ℚ} {r : CorrelationRecord}
    (hr : r ∈ gwSeismicCorrelations gw_data seismic_data event_time) :
    r.isGwSeismic = true := by
  unfold gwSeismicCorrelations at hr
  split at hr
  · rcases List.mem_flatMap.mp hr with ⟨det, -, hrd⟩
    rcases List.mem_filterMap.mp hrd with ⟨ev, -, hre⟩
    dsimp only at hre
    split at hre
    · cases hre; rfl
    · cases hre
  · cases hr

/-- Every record built by block 2 is a `tide_lunar_correlation` record. -/
lemma isTideLunar_of_mem_tideLunarCorrelations
    {tide_data : List (String × List ℚ)}
    {planetary_data : Option PlanetaryData} {r : CorrelationRecord}
    (hr : r ∈ tideLunarCorrelations tide_data planetary_data) :
    r.isTideLunar = true := by
  rcases planetary_data with _ | pd
  · cases hr
  · simp only [tideLunarCorrelations] at hr
    split at hr
    · rcases List.mem_flatMap.mp hr with ⟨st, -, hrst⟩
      rcases hmoon : pd.positions.lookup "moon" with _ | moonPos <;>
        rw [hmoon] at hrst
      · cases hrst
      · rcases List.mem_singleton.mp hrst with rfl; rfl
    · cases hr

/-- Every record built by block 3 is a `space_weather_cosmic_ray`
record. -/
lemma isSpaceWeather_of_mem_spaceWeatherCosmicRayCorrelations
    {space_weather_data cosmic_ray_data : List (String × List ℚ)}
    {r : CorrelationRecord}
    (hr : r ∈ spaceWeatherCosmicRayCorrelations space_weather_data
      cosmic_ray_data) :
    r.isGwSeismic = false ∧ r.isTideLunar = false ∧
      r.isMultiSource = false := by
  unfold spaceWeatherCosmicRayCorrelations at hr
  split at hr
  · rcases List.mem_flatMap.mp hr with ⟨st, -, hrst⟩
    by_cases hsw : (space_weather_data.lookup "solar_wind").isSome
    · rw [if_pos hsw] at hrst
      rcases List.mem_singleton.mp hrst with rfl
      exact ⟨rfl, rfl, rfl⟩
    · rw [if_neg hsw] at hrst
      cases hrst
  · cases hr

/-- Block 4 always emits exactly one `multi_source_timing` record. -/
lemma multiSourceCorrelations_eq (gw_data : List (String × List ℚ))
    (seismic_data : List SeismicEvent)
    (space_weather_data cosmic_ray_data : List (String × List ℚ))
    (event_time : ℚ) :
    multiSourceCorrelations gw_data seismic_data space_weather_data
        cosmic_ray_data event_time =
      [.multi_source_timing event_time
        (([!gw_data.isEmpty, !seismic_data.isEmpty,
           !space_weather_data.isEmpty,
           !cosmic_ray_data.isEmpty].filter (fun b => b)).length) 0.8] := by
  unfold multiSourceCorrelations
  rfl

/-- The `gw_seismic_timing` records in the engine's output are exactly the
ones rule 1 prescribes (in particular the rule's `if gw_data and
seismic_data` guard is redundant: with either dataset empty the nested
iteration is empty anyway). -/
lemma filter_isGwSeismic_analyze (gw_data : List (String × List ℚ))
    (seismic_data : List SeismicEvent)
    (tide_data : List (String × List ℚ))
    (space_weather_data : List (String × List ℚ))
    (cosmic_ray_data : List (String × List ℚ))
    (planetary_data : Option PlanetaryData) (event_time : ℚ) :
    (analyzeRealDataCorrelations gw_data seismic_data tide_data
        space_weather_data cosmic_ray_data planetary_data
        event_time).filter (fun r => r.isGwSeismic) =
      specGwSeismicRecords gw_data seismic_data event_time := by
  unfold analyzeRealDataCorrelations
  simp only [List.filter_append]
  have h2 : (tideLunarCorrelations tide_data planetary_data).filter
      (fun r => r.isGwSeismic) = [] := by
    refine List.filter_eq_nil_iff.mpr fun r hr => ?_
    have := isTideLunar_of_mem_tideLunarCorrelations hr
    cases r <;> simp_all [CorrelationRecord.isTideLunar,
      CorrelationRecord.isGwSeismic]
  have h3 : (spaceWeatherCosmicRayCorrelations space_weather_data
      cosmic_ray_data).filter (fun r => r.isGwSeismic) = [] := by
    refine List.filter_eq_nil_iff.mpr fun r hr => ?_
    simp [(isSpaceWeather_of_mem_spaceWeatherCosmicRayCorrelations hr).1]
  have h4 : (multiSourceCorrelations gw_data seismic_data
      space_weather_data cosmic_ray_data event_time).filter
      (fun r => r.isGwSeismic) = [] := by
    rw [multiSourceCorrelations_eq]; rfl
  rw [h2, h3, h4]
  simp only [List.append_nil]
  have h1 : (gwSeismicCorrelations gw_data seismic_data event_time).filter
      (fun r => r.isGwSeismic) =
      gwSeismicCorrelations gw_data seismic_data event_time :=
    List.filter_eq_self.mpr fun r hr =>
      isGwSeismic_of_mem_gwSeismicCorrelations hr
  rw [h1]
  unfold gwSeismicCorrelations specGwSeismicRecords
  by_cases hg : gw_data.isEmpty
  · rw [List.isEmpty_iff] at hg
    subst hg
    simp
  · by_cases hs : seismic_data.isEmpty
    · rw [List.isEmpty_iff] at hs
      subst hs
      simp
    · rw [if_pos (by simp [hg, hs])]

lemma flatMap_singleton_map {α β : Type} (l : List α) (f : α → β) :
    (l.flatMap fun x => [f x]) = l.map f := by
  induction l with
  | nil => rfl
  | cons a t ih => simp [List.flatMap_cons, ih]

/-- Block 2 computes exactly the records rule 2 of the spec prescribes
(the `if tide_data and planetary_data` guard is redundant for the empty
tide list, where the iteration is empty anyway). -/
lemma tideLunarCorrelations_eq_spec (tide_data : List (String × List ℚ))
    (planetary_data : Option PlanetaryData) :
    tideLunarCorrelations tide_data planetary_data =
      specTideLunarRecords tide_data planetary_data := by
  rcases planetary_data with _ | p
  · rfl
  · simp only [tideLunarCorrelations, specTideLunarRecords]
    rcases hmoon : p.positions.lookup "moon" with _ | mp <;>
      simp only [hmoon]
    · split
      · exact List.flatMap_eq_nil_iff.mpr fun st _ => rfl
      · rfl
    · by_cases ht : tide_data.isEmpty
      · rw [List.isEmpty_iff] at ht
        subst ht
        rfl
      · rw [if_pos (by simp [ht])]
        exact flatMap_singleton_map tide_data _

/-- The `tide_lunar_correlation` records in the engine's output are
exactly the ones rule 2 prescribes. -/
lemma filter_isTideLunar_analyze (gw_data : List (String × List ℚ))
    (seismic_data : List SeismicEvent)
    (tide_data : List (String × List ℚ))
    (space_weather_data : List (String × List ℚ))
    (cosmic_ray_data : List (String × List ℚ))
    (planetary_data : Option PlanetaryData) (event_time : ℚ) :
    (analyzeRealDataCorrelations gw_data seismic_data tide_data
        space_weather_data cosmic_ray_data planetary_data
        event_time).filter (fun r => r.isTideLunar) =
      specTideLunarRecords tide_data planetary_data := by
  unfold analyzeRealDataCorrelations
  simp only [List.filter_append]
  have h1 : (gwSeismicCorrelations gw_data seismic_data event_time).filter
      (fun r => r.isTideLunar) = [] := by
    refine List.filter_eq_nil_iff.mpr fun r hr => ?_
    have := isGwSeismic_of_mem_gwSeismicCorrelations hr
    cases r <;> simp_all [CorrelationRecord.isTideLunar,
      CorrelationRecord.isGwSeismic]
  have h3 : (spaceWeatherCosmicRayCorrelations space_weather_data
      cosmic_ray_data).filter (fun r => r.isTideLunar) = [] := by
    refine List.filter_eq_nil_iff.mpr fun r hr => ?_
    simp [(isSpaceWeather_of_mem_spaceWeatherCosmicRayCorrelations hr).2.1]
  have h4 : (multiSourceCorrelations gw_data seismic_data
      space_weather_data cosmic_ray_data event_time).filter
      (fun r => r.isTideLunar) = [] := by
    rw [multiSourceCorrelations_eq]; rfl
  have h2 : (tideLunarCorrelations tide_data planetary_data).filter
      (fun r => r.isTideLunar) =
      tideLunarCorrelations tide_data planetary_data :=
    List.filter_eq_self.mpr fun r hr =>
      isTideLunar_of_mem_tideLunarCorrelations hr
  rw [h1, h2, h3, h4]
  simp only [List.nil_append, List.append_nil]
  exact tideLunarCorrelations_eq_spec tide_data planetary_data

/-- The engine always emits exactly one `multi_source_timing` record,
whatever the inputs, with the truthy-source count and confidence 0.8. -/
lemma filter_isMultiSource_analyze (gw_data : List (String × List ℚ))
    (seismic_data : List SeismicEvent)
    (tide_data : List (String × List ℚ))
    (space_weather_data : List (String × List ℚ))
    (cosmic_ray_data : List (String × List ℚ))
    (planetary_data : Option PlanetaryData) (event_time : ℚ) :
    (analyzeRealDataCorrelations gw_data seismic_data tide_data
        space_weather_data cosmic_ray_data planetary_data
        event_time).filter (fun r => r.isMultiSource) =
      [.multi_source_timing event_time
        (([!gw_data.isEmpty, !seismic_data.isEmpty,
           !space_weather_data.isEmpty,
           !cosmic_ray_data.isEmpty].filter (fun b => b)).length) 0.8] := by
  unfold analyzeRealDataCorrelations
  simp only [List.filter_append]
  have h1 : (gwSeismicCorrelations gw_data seismic_data event_time).filter
      (fun r => r.isMultiSource) = [] := by
    refine List.filter_eq_nil_iff.mpr fun r hr => ?_
    have := isGwSeismic_of_mem_gwSeismicCorrelations hr
    cases r <;> simp_all [CorrelationRecord.isMultiSource,
      CorrelationRecord.isGwSeismic]
  have h2 : (tideLunarCorrelations tide_data planetary_data).filter
      (fun r => r.isMultiSource) = [] := by
    refine List.filter_eq_nil_iff.mpr fun r hr => ?_
    have := isTideLunar_of_mem_tideLunarCorrelations hr
    cases r <;> simp_all [CorrelationRecord.isMultiSource,
      CorrelationRecord.isTideLunar]
  have h3 : (spaceWeatherCosmicRayCorrelations space_weather_data
      cosmic_ray_data).filter (fun r => r.isMultiSource) = [] := by
    refine List.filter_eq_nil_iff.mpr fun r hr => ?_
    simp [(isSpaceWeather_of_mem_spaceWeatherCosmicRayCorrelations hr).2.2]
  rw [h1, h2, h3, multiSourceCorrelations_eq]
  rfl

/-- C2: for every gravitational-wave detector and every seismic reading,
with `Δt = |reference_time − seismic_time|`, the engine emits one
`gw_seismic_timing` record with confidence `1 − Δt/3600` when
`Δt < 3600 s` (exactly 1 at `Δt = 0`), and excludes the pair entirely when
`Δt ≥ 3600 s`: the `gw_seismic_timing` records of the output are exactly
the ones `specGwSeismicRecords` (written from the spec) prescribes. -/
theorem gw_seismic_timing_matches_spec (gw_data : List (String × List ℚ))
    (seismic_data : List SeismicEvent)
    (tide_data : List (String × List ℚ))
    (space_weather_data : List (String × List ℚ))
    (cosmic_ray_data : List (String × List ℚ))
    (planetary_data : Option PlanetaryData) (event_time : ℚ) :
    (analyzeRealDataCorrelations gw_data seismic_data tide_data
        space_weather_data cosmic_ray_data planetary_data
        event_time).filter (fun r => r.isGwSeismic) =
      specGwSeismicRecords gw_data seismic_data event_time :=
  filter_isGwSeismic_analyze gw_data seismic_data tide_data
    space_weather_data cosmic_ray_data planetary_data event_time

/-- C5: an empty gravitational-wave dataset silently disables only the
GW-seismic rule: no `gw_seismic_timing` record is emitted, while the
tide-lunar rule still produces exactly what the spec prescribes (the
engine is a total function, so no error is possible on partial data). -/
theorem empty_gw_dataset_skips_gw_seismic_rule
    (seismic_data : List SeismicEvent)
    (tide_data : List (String × List ℚ))
    (space_weather_data : List (String × List ℚ))
    (cosmic_ray_data : List (String × List ℚ))
    (planetary_data : Option PlanetaryData) (event_time : ℚ) :
    (analyzeRealDataCorrelations [] seismic_data tide_data
        space_weather_data cosmic_ray_data planetary_data
        event_time).filter (fun r => r.isGwSeismic) = [] ∧
    (analyzeRealDataCorrelations [] seismic_data tide_data
        space_weather_data cosmic_ray_data planetary_data
        event_time).filter (fun r => r.isTideLunar) =
      specTideLunarRecords tide_data planetary_data := by
  constructor
  · rw [filter_isGwSeismic_analyze]
    rfl
  · exact filter_isTideLunar_analyze [] seismic_data tide_data
      space_weather_data cosmic_ray_data planetary_data event_time

/-- C6: the `tide_lunar_correlation` records of the output are exactly one
per tide station with fixed confidence 0.7 when both tide data and a
Moon position are present, and none otherwise, independent of the
water-level values (`specTideLunarRecords` ignores them). -/
theorem tide_lunar_rule_matches_spec (gw_data : List (String × List ℚ))
    (seismic_data : List SeismicEvent)
    (tide_data : List (String × List ℚ))
    (space_weather_data : List (String × List ℚ))
    (cosmic_ray_data : List (String × List ℚ))
    (planetary_data : Option PlanetaryData) (event_time : ℚ) :
    (analyzeRealDataCorrelations gw_data seismic_data tide_data
        space_weather_data cosmic_ray_data planetary_data
        event_time).filter (fun r => r.isTideLunar) =
      specTideLunarRecords tide_data planetary_data :=
  filter_isTideLunar_analyze gw_data seismic_data tide_data
    space_weather_data cosmic_ray_data planetary_data event_time

/-- C1 (code bug): the Python guard
`len([gw_data, seismic_data, space_weather_data, cosmic_ray_data]) >= 3`
measures the four-element list of datasets, not the number of non-empty
ones, so it always holds.  With all four timing-relevant categories empty
the engine still emits a `multi_source_timing` record, carrying
`sources_count = 0` and confidence 0.8 — contradicting the spec's "at
least 3 of the four source categories non-empty". -/
theorem multi_source_timing_emitted_with_zero_sources :
    analyzeRealDataCorrelations [] [] [] [] [] none 0 =
      [.multi_source_timing 0 0 0.8] := by rfl

/-- Block 1 only emits confidences in `(0, 1]`: the time difference is an
absolute value, hence non-negative, and the `< 3600` guard keeps
`1 − Δt/3600` positive. -/
lemma confidence_mem_gwSeismicCorrelations
    {gw_data : List (String × List ℚ)} {seismic_data : List SeismicEvent}
    {event_time : ℚ} {r : CorrelationRecord}
    (hr : r ∈ gwSeismicCorrelations gw_data seismic_data event_time) :
    0 ≤ r.confidence ∧ r.confidence ≤ 1 := by
  unfold gwSeismicCorrelations at hr
  split at hr
  · rcases List.mem_flatMap.mp hr with ⟨det, -, hrd⟩
    rcases List.mem_filterMap.mp hrd with ⟨ev, -, hre⟩
    dsimp only at hre
    split at hre
    · rename_i hlt
      cases hre
      have h0 : (0 : ℚ) ≤ |event_time - ev.time / 1000| := abs_nonneg _
      dsimp only [CorrelationRecord.confidence]
      constructor <;> linarith
    · cases hre
  · cases hr

/-- Block 2 only emits confidence 0.7. -/
lemma confidence_mem_tideLunarCorrelations
    {tide_data : List (String × List ℚ)}
    {planetary_data : Option PlanetaryData} {r : CorrelationRecord}
    (hr : r ∈ tideLunarCorrelations tide_data planetary_data) :
    r.confidence = 0.7 := by
  rcases planetary_data with _ | pd
  · cases hr
  · simp only [tideLunarCorrelations] at hr
    split at hr
    · rcases List.mem_flatMap.mp hr with ⟨st, -, hrst⟩
      rcases hmoon : pd.positions.lookup "moon" with _ | moonPos <;>
        rw [hmoon] at hrst
      · cases hrst
      · rcases List.mem_singleton.mp hrst with rfl; rfl
    · cases hr

/-- Block 3 only emits confidence 0.6. -/
lemma confidence_mem_spaceWeatherCosmicRayCorrelations
    {space_weather_data cosmic_ray_data : List (String × List ℚ)}
    {r : CorrelationRecord}
    (hr : r ∈ spaceWeatherCosmicRayCorrelations space_weather_data
      cosmic_ray_data) :
    r.confidence = 0.6 := by
  unfold spaceWeatherCosmicRayCorrelations at hr
  split at hr
  · rcases List.mem_flatMap.mp hr with ⟨st, -, hrst⟩
    by_cases hsw : (space_weather_data.lookup "solar_wind").isSome
    · rw [if_pos hsw] at hrst
      rcases List.mem_singleton.mp hrst with rfl; rfl
    · rw [if_neg hsw] at hrst
      cases hrst
  · cases hr

/-- C4: every correlation record the engine emits, on any input, carries a
confidence within [0, 1]. -/
theorem all_emitted_confidences_in_unit_interval
    (gw_data : List (String × List ℚ)) (seismic_data : List SeismicEvent)
    (tide_data : List (String × List ℚ))
    (space_weather_data : List (String × List ℚ))
    (cosmic_ray_data : List (String × List ℚ))
    (planetary_data : Option PlanetaryData) (event_time : ℚ)
    (r : CorrelationRecord)
    (hr : r ∈ analyzeRealDataCorrelations gw_data seismic_data tide_data
      space_weather_data cosmic_ray_data planetary_data event_time) :
    0 ≤ r.confidence ∧ r.confidence ≤ 1 := by
  unfold analyzeRealDataCorrelations at hr
  rcases List.mem_append.mp hr with hr | h4
  · rcases List.mem_append.mp hr with hr | h3
    · rcases List.mem_append.mp hr with h1 | h2
      · exact confidence_mem_gwSeismicCorrelations h1
      · rw [confidence_mem_tideLunarCorrelations h2]
        norm_num
    · rw [confidence_mem_spaceWeatherCosmicRayCorrelations h3]
      norm_num
  · rw [multiSourceCorrelations_eq] at h4
    rcases List.mem_singleton.mp h4 with rfl
    dsimp only [CorrelationRecord.confidence]
    norm_num

/-- Concrete instance of C4: the record emitted on the all-empty input has
confidence within [0, 1]. -/
theorem all_emitted_confidences_in_unit_interval_witness :
    CorrelationRecord.multi_source_timing 0 0 0.8 ∈
        analyzeRealDataCorrelations [] [] [] [] [] none 0 ∧
      0 ≤ (CorrelationRecord.multi_source_timing 0 0 0.8).confidence ∧
      (CorrelationRecord.multi_source_timing 0 0 0.8).confidence ≤ 1 := by
  have hm : CorrelationRecord.multi_source_timing 0 0 0.8 ∈
      analyzeRealDataCorrelations [] [] [] [] [] none 0 := by
    rw [show analyzeRealDataCorrelations [] [] [] [] [] none 0 =
      [CorrelationRecord.multi_source_timing 0 0 0.8] from rfl]
    exact List.mem_singleton.mpr rfl
  exact ⟨hm, all_emitted_confidences_in_unit_interval [] [] [] [] [] none 0
    (CorrelationRecord.multi_source_timing 0 0 0.8) hm⟩

/-- C3: the significance scorer returns
`data_source_diversity = min 1 (|used|/6)`,
`correlation_strength = min 1 (|correlations|/5)`,
`real_data_completeness = |used ∩ KNOWN_SOURCES|/6` and
`overall` = the arithmetic mean of the three, and all four values lie in
[0, 1].  `used` is taken duplicate-free (`Nodup`), as the spec's "set of
data sources used"; the engine builds it by appending each category name
at most once. -/
theorem significance_scorer_correct (used : List String)
    (cors : List CorrelationRecord) (h : used.Nodup) :
    (calculateRealDataSignificance used cors).data_source_diversity =
        min 1 ((used.length : ℚ) / 6) ∧
      (calculateRealDataSignificance used cors).correlation_strength =
        min 1 ((cors.length : ℚ) / 5) ∧
      (calculateRealDataSignificance used cors).real_data_completeness =
        ((used.toFinset ∩ realDataSources.toFinset).card : ℚ) / 6 ∧
      (calculateRealDataSignificance used cors).overall =
        ((calculateRealDataSignificance used cors).data_source_diversity +
          (calculateRealDataSignificance used cors).correlation_strength +
          (calculateRealDataSignificance used cors).real_data_completeness)
          / 3 ∧
      (0 ≤ (calculateRealDataSignificance used cors).data_source_diversity ∧
        (calculateRealDataSignificance used cors).data_source_diversity ≤ 1) ∧
      (0 ≤ (calculateRealDataSignificance used cors).correlation_strength ∧
        (calculateRealDataSignificance used cors).correlation_strength ≤ 1) ∧
      (0 ≤ (calculateRealDataSignificance used cors).real_data_completeness ∧
        (calculateRealDataSignificance used cors).real_data_completeness ≤ 1) ∧
      (0 ≤ (calculateRealDataSignificance used cors).overall ∧
        (calculateRealDataSignificance used cors).overall ≤ 1) := by
  have hnat : (used.filter (fun s => realDataSources.contains s)).length =
      (used.toFinset ∩ realDataSources.toFinset).card := by
    rw [← List.toFinset_card_of_nodup (h.filter _)]
    congr 1
    ext a
    simp [List.mem_filter, Finset.mem_inter, List.contains, List.elem_iff]
  have hcard6 : (used.toFinset ∩ realDataSources.toFinset).card ≤ 6 := by
    have hsub : used.toFinset ∩ realDataSources.toFinset ⊆
        realDataSources.toFinset := Finset.inter_subset_right
    have hle := Finset.card_le_card hsub
    have hc : realDataSources.toFinset.card = 6 := by decide
    omega
  have hcomp : (calculateRealDataSignificance used cors).real_data_completeness
      = ((used.toFinset ∩ realDataSources.toFinset).card : ℚ) / 6 := by
    dsimp only [calculateRealDataSignificance]
    rw [hnat]
    norm_num [realDataSources]
  have hd0 : (0 : ℚ) ≤ min 1 ((used.length : ℚ) / 6) :=
    le_min (by norm_num) (by positivity)
  have hd1 : min 1 ((used.length : ℚ) / 6) ≤ 1 := min_le_left _ _
  have hs0 : (0 : ℚ) ≤ min 1 ((cors.length : ℚ) / 5) :=
    le_min (by norm_num) (by positivity)
  have hs1 : min 1 ((cors.length : ℚ) / 5) ≤ 1 := min_le_left _ _
  have hc0 : (0 : ℚ) ≤
      ((used.toFinset ∩ realDataSources.toFinset).card : ℚ) / 6 := by
    positivity
  have hc1 : ((used.toFinset ∩ realDataSources.toFinset).card : ℚ) / 6 ≤ 1 := by
    rw [div_le_one (by norm_num)]
    exact_mod_cast hcard6
  refine ⟨rfl, rfl, hcomp, rfl, ⟨hd0, hd1⟩, ⟨hs0, hs1⟩, ?_, ?_⟩
  · rw [hcomp]
    exact ⟨hc0, hc1⟩
  · have ho : (calculateRealDataSignificance used cors).overall =
        (min 1 ((used.length : ℚ) / 6) + min 1 ((cors.length : ℚ) / 5) +
          (calculateRealDataSignificance used cors).real_data_completeness)
          / 3 := rfl
    rw [ho, hcomp]
    constructor <;> linarith

/-- Concrete instance of C3: the scorer on the empty inputs (the claim's
"including empty inputs" case). -/
theorem significance_scorer_correct_witness :
    ([] : List String).Nodup ∧
      ((calculateRealDataSignificance [] []).data_source_diversity =
        min 1 ((([] : List String).length : ℚ) / 6) ∧
      (calculateRealDataSignificance [] []).correlation_strength =
        min 1 ((([] : List CorrelationRecord).length : ℚ) / 5) ∧
      (calculateRealDataSignificance [] []).real_data_completeness =
        ((([] : List String).toFinset ∩ realDataSources.toFinset).card : ℚ)
          / 6 ∧
      (calculateRealDataSignificance [] []).overall =
        ((calculateRealDataSignificance [] []).data_source_diversity +
          (calculateRealDataSignificance [] []).correlation_strength +
          (calculateRealDataSignificance [] []).real_data_completeness)
          / 3 ∧
      (0 ≤ (calculateRealDataSignificance [] []).data_source_diversity ∧
        (calculateRealDataSignificance [] []).data_source_diversity ≤ 1) ∧
      (0 ≤ (calculateRealDataSignificance [] []).correlation_strength ∧
        (calculateRealDataSignificance [] []).correlation_strength ≤ 1) ∧
      (0 ≤ (calculateRealDataSignificance [] []).real_data_completeness ∧
        (calculateRealDataSignificance [] []).real_data_completeness ≤ 1) ∧
      (0 ≤ (calculateRealDataSignificance [] []).overall ∧
        (calculateRealDataSignificance [] []).overall ≤ 1)) :=
  ⟨List.nodup_nil, significance_scorer_correct [] [] List.nodup_nil⟩

example :
    analyzeRealDataCorrelations [("H1", [])]
      [⟨1800000, 3, 100⟩] [] [] [] none 0 =
      [.gw_seismic_timing "H1" 3 1800 100 (1/2),
       .multi_source_timing 0 2 0.8] := by
  norm_num [analyzeRealDataCorrelations, gwSeismicCorrelations,
    tideLunarCorrelations, spaceWeatherCosmicRayCorrelations,
    multiSourceCorrelations, List.filterMap_cons, abs_of_nonneg]

/-! ## Planetary alignment metric (`_calculate_planetary_alignment`) -/

/-- `np.radians`: degrees to radians. -/
noncomputable def radians (x : ℝ) : ℝ := x * Real.pi / 180

/-- `np.degrees`: radians to degrees. -/
noncomputable def degrees (x : ℝ) : ℝ := x * 180 / Real.pi

/-- `np.clip(a, lo, hi)`. -/
noncomputable def clip (a lo hi : ℝ) : ℝ := min hi (max lo a)

/-- The spherical-law-of-cosines cosine term `cos_sep` of
`_calculate_planetary_alignment`, with the degree→radian conversions. -/
noncomputable def cosSep (ra1 dec1 ra2 dec2 : ℝ) : ℝ :=
  Real.sin (radians dec1) * Real.sin (radians dec2) +
    Real.cos (radians dec1) * Real.cos (radians dec2) *
      Real.cos (radians ra1 - radians ra2)

/-- The argument the code passes to `np.arccos`:
`np.clip(cos_sep, -1, 1)`. -/
noncomputable def arccosArg (ra1 dec1 ra2 dec2 : ℝ) : ℝ :=
  clip (cosSep ra1 dec1 ra2 dec2) (-1) 1

/-- One pairwise angular separation in degrees:
`np.degrees(np.arccos(np.clip(cos_sep, -1, 1)))`. -/
noncomputable def angularSeparation (ra1 dec1 ra2 dec2 : ℝ) : ℝ :=
  degrees (Real.arccos (arccosArg ra1 dec1 ra2 dec2))

/-- One body's entry in the `positions` mapping handed to
`_calculate_planetary_alignment`: `ra_deg` is `none` when the value is
missing/None (the code checks `pos.get('ra_deg') is not None`), `dec_deg`
is read unguarded. -/
structure CelestialPos where
  ra_deg : Option ℝ
  dec_deg : ℝ
deriving Inhabited

/-- The `i < j` index pairs of the two nested loops, in iteration order. -/
def pairsAfter {α : Type} : List α → List (α × α)
  | [] => []
  | x :: xs => (xs.map fun y => (x, y)) ++ pairsAfter xs

/-- The `separations` list accumulated by `_calculate_planetary_alignment`:
one entry per unordered pair of bodies whose `ra_deg` are both present. -/
noncomputable def separationsOf (positions : List (String × CelestialPos)) :
    List ℝ :=
  (pairsAfter positions).filterMap fun pq =>
    match pq.1.2.ra_deg, pq.2.2.ra_deg with
    | some ra1, some ra2 =>
      some (angularSeparation ra1 pq.1.2.dec_deg ra2 pq.2.2.dec_deg)
    | _, _ => none

/-- `np.min` on a list (0 on the empty list, which the code never takes). -/
noncomputable def listMin : List ℝ → ℝ
  | [] => 0
  | a :: t => t.foldl min a

/-- `np.max` on a list (0 on the empty list, which the code never takes). -/
noncomputable def listMax : List ℝ → ℝ
  | [] => 0
  | a :: t => t.foldl max a

/-- The metrics dict returned by `_calculate_planetary_alignment` when
non-empty, field order as in the source. -/
structure AlignmentMetrics where
  mean_separation_deg : ℝ
  min_separation_deg : ℝ
  max_separation_deg : ℝ
  alignment_score : ℝ
  tight_alignment : Prop

/-- Embedding of `_calculate_planetary_alignment` (rdcs2.py lines
766-797): fewer than 2 bodies → empty result; no computable separation
(every pair missing an `ra_deg`) → empty result; otherwise the five
metrics, with `alignment_score = 1/(1 + mean)`. -/
noncomputable def calculatePlanetaryAlignment
    (positions : List (String × CelestialPos)) : Option AlignmentMetrics :=
  if positions.length < 2 then none
  else
    match separationsOf positions with
    | [] => none
    | s :: rest =>
      some
        { mean_separation_deg := (s :: rest).sum / ((s :: rest).length : ℝ)
          min_separation_deg := listMin (s :: rest)
          max_separation_deg := listMax (s :: rest)
          alignment_score :=
            1 / (1 + (s :: rest).sum / ((s :: rest).length : ℝ))
          tight_alignment := listMin (s :: rest) < 30 }

/-- C7: the argument the alignment metric passes to `arccos` is always in
[−1, 1] — the clamp makes the `NumericDomainError` branch unreachable for
every input. -/
theorem arccos_argument_always_clamped (ra1 dec1 ra2 dec2 : ℝ) :
    -1 ≤ arccosArg ra1 dec1 ra2 dec2 ∧ arccosArg ra1 dec1 ra2 dec2 ≤ 1 := by
  unfold arccosArg clip
  exact ⟨le_min (by norm_num) (le_max_left _ _), min_le_left _ _⟩

lemma angularSeparation_self (ra dec : ℝ) :
    angularSeparation ra dec ra dec = 0 := by
  unfold angularSeparation arccosArg cosSep clip degrees
  have h1 : Real.sin (radians dec) * Real.sin (radians dec) +
      Real.cos (radians dec) * Real.cos (radians dec) *
        Real.cos (radians ra - radians ra) = 1 := by
    rw [sub_self, Real.cos_zero, mul_one]
    have h := Real.sin_sq_add_cos_sq (radians dec)
    nlinarith [h]
  rw [h1]
  have h2 : min (1 : ℝ) (max (-1) 1) = 1 := by norm_num
  rw [h2, Real.arccos_one, zero_mul, zero_div]

lemma angularSeparation_antipodal (ra dec : ℝ) :
    angularSeparation ra dec (ra + 180) (-dec) = 180 := by
  unfold angularSeparation arccosArg cosSep clip degrees
  have hra : radians ra - radians (ra + 180) = -Real.pi := by
    unfold radians
    field_simp
    ring
  have hdec : radians (-dec) = -(radians dec) := by
    unfold radians
    ring
  have h1 : Real.sin (radians dec) * Real.sin (radians (-dec)) +
      Real.cos (radians dec) * Real.cos (radians (-dec)) *
        Real.cos (radians ra - radians (ra + 180)) = -1 := by
    rw [hra, hdec, Real.sin_neg, Real.cos_neg, Real.cos_neg, Real.cos_pi]
    have h := Real.sin_sq_add_cos_sq (radians dec)
    nlinarith [h]
  rw [h1]
  have h2 : min (1 : ℝ) (max (-1) (-1)) = -1 := by norm_num
  rw [h2, Real.arccos_neg_one]
  field_simp

/-- C8: the pairwise angular separation is exactly 0° for two bodies at
identical RA/Dec, and exactly 180° for two antipodal bodies (RA shifted by
180°, Dec negated). -/
theorem angular_separation_identical_and_antipodal (ra dec : ℝ) :
    angularSeparation ra dec ra dec = 0 ∧
      angularSeparation ra dec (ra + 180) (-dec) = 180 :=
  ⟨angularSeparation_self ra dec, angularSeparation_antipodal ra dec⟩

/-- C9: fewer than 2 bodies → the alignment metric returns the empty
result (it is a total function, so no error is possible). -/
theorem alignment_on_fewer_than_two_bodies_empty
    (positions : List (String × CelestialPos))
    (h : positions.length < 2) :
    calculatePlanetaryAlignment positions = none := by
  unfold calculatePlanetaryAlignment
  rw [if_pos h]

/-- Concrete instance of C9: the empty positions mapping. -/
theorem alignment_on_fewer_than_two_bodies_empty_witness :
    ([] : List (String × CelestialPos)).length < 2 ∧
      calculatePlanetaryAlignment [] = none :=
  ⟨by norm_num, alignment_on_fewer_than_two_bodies_empty [] (by norm_num)⟩

lemma le_foldl_min (t : List ℝ) :
    ∀ a c : ℝ, c ≤ a → (∀ x ∈ t, c ≤ x) → c ≤ t.foldl min a := by
  induction t with
  | nil => intro a c hca _; exact hca
  | cons b t ih =>
    intro a c hca hall
    simp only [List.foldl_cons]
    exact ih (min a b) c (le_min hca (hall b (by simp)))
      fun x hx => hall x (by simp [hx])

lemma foldl_min_le (t : List ℝ) :
    ∀ a b : ℝ, b = a ∨ b ∈ t → t.foldl min a ≤ b := by
  induction t with
  | nil =>
    intro a b hb
    rcases hb with rfl | h
    · exact le_refl _
    · cases h
  | cons c t ih =>
    intro a b hb
    simp only [List.foldl_cons]
    rcases hb with rfl | hb
    · exact le_trans (ih (min b c) (min b c) (Or.inl rfl)) (min_le_left _ _)
    · rcases List.mem_cons.mp hb with rfl | hb
      · exact le_trans (ih (min a b) (min a b) (Or.inl rfl)) (min_le_right _ _)
      · exact ih (min a c) b (Or.inr hb)

lemma foldl_max_le (t : List ℝ) :
    ∀ a c : ℝ, a ≤ c → (∀ x ∈ t, x ≤ c) → t.foldl max a ≤ c := by
  induction t with
  | nil => intro a c hac _; exact hac
  | cons b t ih =>
    intro a c hac hall
    simp only [List.foldl_cons]
    exact ih (max a b) c (max_le hac (hall b (by simp)))
      fun x hx => hall x (by simp [hx])

lemma le_foldl_max (t : List ℝ) :
    ∀ a b : ℝ, b = a ∨ b ∈ t → b ≤ t.foldl max a := by
  induction t with
  | nil =>
    intro a b hb
    rcases hb with rfl | h
    · exact le_refl _
    · cases h
  | cons c t ih =>
    intro a b hb
    simp only [List.foldl_cons]
    rcases hb with rfl | hb
    · exact le_trans (le_max_left _ _) (ih (max b c) (max b c) (Or.inl rfl))
    · rcases List.mem_cons.mp hb with rfl | hb
      · exact le_trans (le_max_right _ _) (ih (max a b) (max a b) (Or.inl rfl))
      · exact ih (max a c) b (Or.inr hb)

/-- `np.min` bounds every member from below. -/
lemma listMin_le_mem {l : List ℝ} {x : ℝ} (hx : x ∈ l) : listMin l ≤ x := by
  rcases l with _ | ⟨a, t⟩
  · cases hx
  · rcases List.mem_cons.mp hx with rfl | hx
    · exact foldl_min_le t x x (Or.inl rfl)
    · exact foldl_min_le t a x (Or.inr hx)

/-- Every lower bound of a non-empty list bounds `np.min`. -/
lemma le_listMin {l : List ℝ} {c : ℝ} (hl : l ≠ [])
    (h : ∀ x ∈ l, c ≤ x) : c ≤ listMin l := by
  rcases l with _ | ⟨a, t⟩
  · exact absurd rfl hl
  · exact le_foldl_min t a c (h a (by simp)) fun x hx => h x (by simp [hx])

/-- `np.max` bounds every member from above. -/
lemma mem_le_listMax {l : List ℝ} {x : ℝ} (hx : x ∈ l) : x ≤ listMax l := by
  rcases l with _ | ⟨a, t⟩
  · cases hx
  · rcases List.mem_cons.mp hx with rfl | hx
    · exact le_foldl_max t x x (Or.inl rfl)
    · exact le_foldl_max t a x (Or.inr hx)

/-- Every upper bound of a non-empty list bounds `np.max`. -/
lemma listMax_le {l : List ℝ} {c : ℝ} (hl : l ≠ [])
    (h : ∀ x ∈ l, x ≤ c) : listMax l ≤ c := by
  rcases l with _ | ⟨a, t⟩
  · exact absurd rfl hl
  · exact foldl_max_le t a c (h a (by simp)) fun x hx => h x (by simp [hx])

/-- A non-negative list sums to 0 exactly when all entries are 0. -/
lemma sum_eq_zero_iff_of_nonneg {l : List ℝ} (h : ∀ x ∈ l, 0 ≤ x) :
    l.sum = 0 ↔ ∀ x ∈ l, x = 0 := by
  induction l with
  | nil => simp
  | cons a t ih =>
    have ha : 0 ≤ a := h a (by simp)
    have ht : ∀ x ∈ t, (0 : ℝ) ≤ x := fun x hx => h x (by simp [hx])
    have hts : 0 ≤ t.sum := List.sum_nonneg ht
    rw [List.sum_cons]
    constructor
    · intro h0
      have ha0 : a = 0 := by linarith
      have hts0 : t.sum = 0 := by linarith
      intro x hx
      rcases List.mem_cons.mp hx with rfl | hx
      · exact ha0
      · exact ((ih ht).mp hts0) x hx
    · intro hall
      have ha0 : a = 0 := hall a (by simp)
      have hts0 : t.sum = 0 :=
        (ih ht).mpr fun x hx => hall x (by simp [hx])
      rw [ha0, hts0, add_zero]

/-- Every pairwise separation lies in [0, 180] (arccos lands in [0, π]). -/
lemma angularSeparation_bounds (ra1 dec1 ra2 dec2 : ℝ) :
    0 ≤ angularSeparation ra1 dec1 ra2 dec2 ∧
      angularSeparation ra1 dec1 ra2 dec2 ≤ 180 := by
  unfold angularSeparation degrees
  have h0 : 0 ≤ Real.arccos (arccosArg ra1 dec1 ra2 dec2) :=
    Real.arccos_nonneg _
  have h1 : Real.arccos (arccosArg ra1 dec1 ra2 dec2) ≤ Real.pi :=
    Real.arccos_le_pi _
  have hpi := Real.pi_pos
  constructor
  · exact div_nonneg (by nlinarith) hpi.le
  · rw [div_le_iff₀ hpi]
    nlinarith

/-- Every entry of the `separations` list lies in [0, 180]. -/
lemma mem_separationsOf_bounds {positions : List (String × CelestialPos)}
    {x : ℝ} (hx : x ∈ separationsOf positions) : 0 ≤ x ∧ x ≤ 180 := by
  unfold separationsOf at hx
  rcases List.mem_filterMap.mp hx with ⟨pq, -, hpq⟩
  rcases h1 : pq.1.2.ra_deg with _ | ra1 <;>
    rcases h2 : pq.2.2.ra_deg with _ | ra2 <;> rw [h1, h2] at hpq
  · cases hpq
  · cases hpq
  · cases hpq
  · obtain rfl := Option.some.inj hpq
    exact angularSeparation_bounds ra1 pq.1.2.dec_deg ra2 pq.2.2.dec_deg

/-- C10 (implicit invariants): whenever the alignment metric returns a
non-empty result, `0 ≤ min ≤ mean ≤ max ≤ 180`, the score equals
`1/(1 + mean)` and lies in (0, 1], and the score is 1 exactly when every
pairwise separation is 0. -/
theorem alignment_metrics_invariants
    (positions : List (String × CelestialPos)) (m : AlignmentMetrics)
    (hm : calculatePlanetaryAlignment positions = some m) :
    0 ≤ m.min_separation_deg ∧
      m.min_separation_deg ≤ m.mean_separation_deg ∧
      m.mean_separation_deg ≤ m.max_separation_deg ∧
      m.max_separation_deg ≤ 180 ∧
      m.alignment_score = 1 / (1 + m.mean_separation_deg) ∧
      0 < m.alignment_score ∧ m.alignment_score ≤ 1 ∧
      (m.alignment_score = 1 ↔ ∀ s ∈ separationsOf positions, s = 0) := by
  unfold calculatePlanetaryAlignment at hm
  split at hm
  · cases hm
  rcases hsep : separationsOf positions with _ | ⟨s, rest⟩ <;>
    rw [hsep] at hm
  · cases hm
  obtain rfl := Option.some.inj hm
  dsimp only
  have hne : s :: rest ≠ [] := by simp
  have hb : ∀ x ∈ s :: rest, 0 ≤ x ∧ x ≤ 180 := by
    intro x hx
    have hx' : x ∈ separationsOf positions := by
      rw [hsep]
      exact hx
    exact mem_separationsOf_bounds hx'
  have hlen : (0 : ℝ) < ((s :: rest).length : ℝ) := by
    simp only [List.length_cons]
    positivity
  have hmin0 : 0 ≤ listMin (s :: rest) :=
    le_listMin hne fun x hx => (hb x hx).1
  have hminsum : ((s :: rest).length : ℝ) * listMin (s :: rest) ≤
      (s :: rest).sum := by
    have := List.card_nsmul_le_sum (s :: rest) (listMin (s :: rest))
      fun x hx => listMin_le_mem hx
    simpa [nsmul_eq_mul] using this
  have hsummax : (s :: rest).sum ≤
      ((s :: rest).length : ℝ) * listMax (s :: rest) := by
    have := List.sum_le_card_nsmul (s :: rest) (listMax (s :: rest))
      fun x hx => mem_le_listMax hx
    simpa [nsmul_eq_mul] using this
  have hminmean : listMin (s :: rest) ≤
      (s :: rest).sum / ((s :: rest).length : ℝ) := by
    rw [le_div_iff₀ hlen]
    calc listMin (s :: rest) * ((s :: rest).length : ℝ)
        = ((s :: rest).length : ℝ) * listMin (s :: rest) := by ring
      _ ≤ (s :: rest).sum := hminsum
  have hmeanmax : (s :: rest).sum / ((s :: rest).length : ℝ) ≤
      listMax (s :: rest) := by
    rw [div_le_iff₀ hlen]
    calc (s :: rest).sum ≤ ((s :: rest).length : ℝ) * listMax (s :: rest) :=
        hsummax
      _ = listMax (s :: rest) * ((s :: rest).length : ℝ) := by ring
  have hmax180 : listMax (s :: rest) ≤ 180 :=
    listMax_le hne fun x hx => (hb x hx).2
  have hmean0 : 0 ≤ (s :: rest).sum / ((s :: rest).length : ℝ) :=
    le_trans hmin0 hminmean
  have hscorepos : 0 < 1 / (1 + (s :: rest).sum / ((s :: rest).length : ℝ)) :=
    one_div_pos.mpr (by linarith)
  have hscorele : 1 / (1 + (s :: rest).sum / ((s :: rest).length : ℝ)) ≤ 1 := by
    rw [div_le_one (by linarith)]
    linarith
  refine ⟨hmin0, hminmean, hmeanmax, hmax180, rfl, hscorepos, hscorele, ?_⟩
  have hden : 1 + (s :: rest).sum / ((s :: rest).length : ℝ) ≠ 0 := by
    intro h0
    linarith
  rw [div_eq_one_iff_eq hden]
  constructor
  · intro h1
    have hmean : (s :: rest).sum / ((s :: rest).length : ℝ) = 0 := by
      linarith
    have hsum : (s :: rest).sum = 0 := by
      rcases div_eq_zero_iff.mp hmean with h | h
      · exact h
      · exact absurd h (ne_of_gt hlen)
    exact (sum_eq_zero_iff_of_nonneg fun x hx => (hb x hx).1).mp hsum
  · intro hall
    have hsum : (s :: rest).sum = 0 :=
      (sum_eq_zero_iff_of_nonneg fun x hx => (hb x hx).1).mpr hall
    rw [hsum, zero_div, add_zero]

/-- Two bodies at identical coordinates: a concrete non-empty input for
the alignment metric. -/
noncomputable def demoPositions : List (String × CelestialPos) :=
  [("a", ⟨some 0, 0⟩), ("b", ⟨some 0, 0⟩)]

/-- The metrics the alignment metric returns on `demoPositions`. -/
noncomputable def demoMetrics : AlignmentMetrics :=
  { mean_separation_deg := 0
    min_separation_deg := 0
    max_separation_deg := 0
    alignment_score := 1
    tight_alignment := (0 : ℝ) < 30 }

/-- Concrete instance of C10: on two coincident bodies the metric returns
a result satisfying all the invariants, with score exactly 1. -/
theorem alignment_metrics_invariants_witness :
    calculatePlanetaryAlignment demoPositions = some demoMetrics ∧
      (0 ≤ demoMetrics.min_separation_deg ∧
        demoMetrics.min_separation_deg ≤ demoMetrics.mean_separation_deg ∧
        demoMetrics.mean_separation_deg ≤ demoMetrics.max_separation_deg ∧
        demoMetrics.max_separation_deg ≤ 180 ∧
        demoMetrics.alignment_score =
          1 / (1 + demoMetrics.mean_separation_deg) ∧
        0 < demoMetrics.alignment_score ∧
        demoMetrics.alignment_score ≤ 1 ∧
        (demoMetrics.alignment_score = 1 ↔
          ∀ s ∈ separationsOf demoPositions, s = 0)) := by
  have h1 : separationsOf demoPositions = [angularSeparation 0 0 0 0] := rfl
  rw [angularSeparation_self] at h1
  have hcalc : calculatePlanetaryAlignment demoPositions = some demoMetrics := by
    unfold calculatePlanetaryAlignment
    rw [if_neg (by norm_num [demoPositions]), h1]
    norm_num [demoMetrics, listMin, listMax]
  exact ⟨hcalc, alignment_metrics_invariants demoPositions demoMetrics hcalc⟩
